import Mathlib

/-!
# Verification of the netlib signaling session (`src/lib/signaling.ts`)

Shallow embedding of the `Signaling` class: the packet dispatcher
(`handleSignalingMessage`), the reconnect policy (`reconnect`) and the
transport-lifecycle handlers (`connect`'s `onOpen` / `onError` / `onClose`)
are translated into pure Lean functions over an explicit session state.
External collaborators (`Network._addPeer`, `Peer._onSignalingMessage`,
`Peer.close`) are modelled from the spec's collaborator interface, since
their sources are outside the provided tree.
-/

namespace Netlib

/-- Error categories of `SignalingError` (`signaling.ts:199`). -/
inductive ErrKind where
  | unknown
  | socket
  | server
deriving DecidableEq, Repr

/-- Inbound/outbound signaling packets (`SignalingPacketTypes`), as the
dispatcher's `switch` distinguishes them.  Negotiation payloads of
`candidate` / `description` are abstracted as an opaque string. -/
inductive Packet where
  | welcome (id : String)
  | joined (lobby : String)
  | connect (id : String) (polite : Bool)
  | disconnect (id : String)
  | candidate (source : String) (payload : String)
  | description (source : String) (payload : String)
  | credentials
  | errorPkt (error : String)
deriving DecidableEq, Repr

/-- An inbound text frame, after the fate of `JSON.parse` is decided:
either it throws (`malformed`), or it yields a value whose `type` field
matches no `case` of the dispatcher's `switch` (`unknownType`), or it
yields one of the known packet variants. -/
inductive Frame where
  | malformed
  | unknownType
  | ok (p : Packet)
deriving DecidableEq, Repr

/-- Observable side effects of the session: events emitted on the network
emitter, calls into collaborators, console fallback output, scheduled
timers and outbound sends. -/
inductive Ev where
  | sigError (k : ErrKind)
  | consoleErr (k : ErrKind)
  | ready
  | reconnected
  | failed
  | lobbyEv (lobby : String)
  | credentialsEv
  | prefetchTURN
  | addPeerCall (id : String) (polite : Bool)
  | deliverCall (id : String) (p : Packet)
  | closePeerCall (id : String)
  | scheduleConnect (attempt : Nat)
  | sendHello (id : Option String)
  | analyticsEv (category : String) (action : String)
  | closeTransport
deriving DecidableEq, Repr

/-- Modelled from the spec: a peer state-machine object held in the
`PeerRegistry`; the session only calls `_onSignalingMessage` (recorded in
`delivered`, in call order) and `close` (recorded in `closed`). -/
structure Peer where
  delivered : List Packet
  closed : Bool
  polite : Bool
deriving DecidableEq, Repr

/-- Association-list lookup, as `Map.get` on string keys. -/
def alookup {α : Type} (m : List (String × α)) (k : String) : Option α :=
  match m with
  | [] => none
  | (k', v) :: rest => if k' = k then some v else alookup rest k

/-- Association-list removal, as `Map.delete` on string keys.  The maps
are observed only through lookup, so the representation keeps at most one
entry per key by removing every entry for the deleted key. -/
def adelete {α : Type} (m : List (String × α)) (k : String) :
    List (String × α) :=
  match m with
  | [] => []
  | (k', v) :: rest =>
      if k' = k then adelete rest k else (k', v) :: adelete rest k

/-- Association-list update/insert, as `Map.set` on string keys. -/
def aset {α : Type} (m : List (String × α)) (k : String) (v : α) :
    List (String × α) :=
  (k, v) :: adelete m k

/-- Keys with an entry, as `Map.has`. -/
def ahas {α : Type} (m : List (String × α)) (k : String) : Bool :=
  (alookup m k).isSome

/-- The dispatcher-visible session state: `receivedID`, `currentLobby`,
the reconnect counters, the peer registry (`connections`) and the
`replayQueue` (`signaling.ts:13-20`). -/
structure ConnState where
  receivedID : Option String
  currentLobby : Option String
  reconnectAttempt : Nat
  reconnecting : Bool
  connections : List (String × Peer)
  replayQueue : List (String × List Packet)
deriving DecidableEq, Repr

/-- Modelled from the spec: `PeerRegistry.addPeer(id, polite)`
(`Network._addPeer`, outside the provided tree) registers a fresh peer
object for `id` with the given politeness role. -/
def addPeer (s : ConnState) (id : String) (polite : Bool) : ConnState :=
  { s with connections := aset s.connections id ⟨[], false, polite⟩ }

/-- Modelled from the spec: `peer.deliver(packet)`
(`Peer._onSignalingMessage`, outside the provided tree) hands a
negotiation packet to the peer object; we record it in arrival order. -/
def deliverTo (s : ConnState) (id : String) (p : Packet) : ConnState :=
  match alookup s.connections id with
  | none => s
  | some peer =>
      let peer' := { peer with delivered := peer.delivered ++ [p] }
      { s with connections := aset s.connections id peer' }

/-- Modelled from the spec: `peer.close()` (outside the provided tree)
asks the peer object to close itself; the registry entry is untouched. -/
def closePeer (s : ConnState) (id : String) : ConnState :=
  match alookup s.connections id with
  | none => s
  | some peer =>
      { s with connections := aset s.connections id { peer with closed := true } }

/-- Flush of the replay queue inside the `connect` case
(`signaling.ts:149-151`): deliver the buffered packets for `id` one by
one, in buffer order. -/
def flushReplay (s : ConnState) (id : String) :
    List Packet → ConnState × List Ev
  | [] => (s, [])
  | p :: rest =>
      let r := flushReplay (deliverTo s id p) id rest
      (r.1, Ev.deliverCall id p :: r.2)

/-- The body of the `try` block's `switch` (`signaling.ts:111-173`).
`hl` says whether the network has a `signalingerror` listener
(`listenerCount > 0`).  `Except.error ()` models a thrown exception; the
only throws (`signaling.ts:129,138`) occur before any state mutation or
emission in their case. -/
def dispatchPacket (hl : Bool) (s : ConnState) :
    Packet → Except Unit (ConnState × List Ev)
  | .errorPkt _ =>
      .ok (s, Ev.sigError .server ::
        (if hl then [] else [Ev.consoleErr .server]))
  | .welcome id =>
      match s.receivedID with
      | some _ => .ok (s, [Ev.reconnected])
      | none =>
          if id = "" then .error ()
          else .ok ({ s with receivedID := some id },
                    [Ev.ready, Ev.prefetchTURN])
  | .joined lobby =>
      if lobby = "" then .error ()
      else .ok ({ s with currentLobby := some lobby }, [Ev.lobbyEv lobby])
  | .connect id polite =>
      if s.receivedID = some id then .ok (s, [])
      else
        let s1 := addPeer s id polite
        let q := (alookup s1.replayQueue id).getD []
        let fr := flushReplay s1 id q
        .ok ({ fr.1 with replayQueue := adelete fr.1.replayQueue id },
             Ev.addPeerCall id polite :: fr.2)
  | .disconnect id =>
      if ahas s.connections id then
        .ok (closePeer s id, [Ev.closePeerCall id])
      else .ok (s, [])
  | .candidate source payload =>
      if ahas s.connections source then
        .ok (deliverTo s source (.candidate source payload),
             [Ev.deliverCall source (.candidate source payload)])
      else
        let q := (alookup s.replayQueue source).getD []
        let rq := aset s.replayQueue source (q ++ [.candidate source payload])
        .ok ({ s with replayQueue := rq }, [])
  | .description source payload =>
      if ahas s.connections source then
        .ok (deliverTo s source (.description source payload),
             [Ev.deliverCall source (.description source payload)])
      else
        let q := (alookup s.replayQueue source).getD []
        let rq := aset s.replayQueue source (q ++ [.description source payload])
        .ok ({ s with replayQueue := rq }, [])
  | .credentials => .ok (s, [Ev.credentialsEv])

/-- `handleSignalingMessage` (`signaling.ts:107-178`): parse the frame,
dispatch it, and convert any exception into a single `unknown-error`
event via the surrounding `try`/`catch`. -/
def handleSignalingMessage (hl : Bool) (s : ConnState) :
    Frame → ConnState × List Ev
  | .malformed => (s, [Ev.sigError .unknown])
  | .unknownType => (s, [])
  | .ok p =>
      match dispatchPacket hl s p with
      | .ok r => r
      | .error _ => (s, [Ev.sigError .unknown])

/-- Dispatch of a whole inbound frame sequence, one frame at a time,
collecting each frame's event batch. -/
def handleAll (hl : Bool) (s : ConnState) :
    List Frame → ConnState × List (List Ev)
  | [] => (s, [])
  | f :: fs =>
      let r := handleSignalingMessage hl s f
      let r' := handleAll hl r.1 fs
      (r'.1, r.2 :: r'.2)

/-- Lifecycle state of the session: the reconnect policy's counters, the
application-initiated `network.closing` flag, the identity reused in
`hello`, the number of `setTimeout`-scheduled `connect()` callbacks not
yet fired (`pending`), and whether a WebSocket with attached listeners is
live (`live`). -/
structure LifeState where
  reconnectAttempt : Nat
  reconnecting : Bool
  closing : Bool
  receivedID : Option String
  pending : Nat
  live : Bool
deriving DecidableEq, Repr

/-- `Signaling.reconnect` (`signaling.ts:78-93`): no-op when already
reconnecting or closing; past the ceiling (42) emit `failed` and a
`socket-error`; otherwise emit the analytics event, set the flag,
schedule a `connect()` and increment the attempt counter. -/
def reconnect (s : LifeState) : LifeState × List Ev :=
  if s.reconnecting || s.closing then (s, [])
  else if s.reconnectAttempt > 42 then
    (s, [Ev.failed, Ev.sigError .socket])
  else
    ({ s with reconnecting := true, pending := s.pending + 1,
              reconnectAttempt := s.reconnectAttempt + 1 },
     [Ev.analyticsEv "signaling" "attempt-reconnect",
      Ev.scheduleConnect s.reconnectAttempt])

/-- External lifecycle events: a scheduled `connect()` timer fires, a live
socket opens, or a live socket fails to connect (the browser fires
`error` with `readyState = CLOSED` and then `close`, running both
handlers of `signaling.ts:43-70`). -/
inductive LifeEvent where
  | timerFire
  | wsOpen
  | wsFail
deriving DecidableEq, Repr

/-- The `onError`-then-`onClose` handler pair executed on a transport
failure (`signaling.ts:43-53` then `57-70`): surface a `socket-error`
(with console fallback when no listener), clear the reconnecting flag and
call `reconnect`; then, from `onClose`, surface the close error unless
the application is closing, detach the listeners and call `reconnect`
again. -/
def wsFailStep (hl : Bool) (s : LifeState) : LifeState × List Ev :=
  let evErr := Ev.sigError ErrKind.socket ::
    (if hl then [] else [Ev.consoleErr ErrKind.socket])
  let r2 := reconnect { s with reconnecting := false }
  let evClose :=
    if r2.1.closing then []
    else Ev.sigError ErrKind.socket ::
      (if hl then [] else [Ev.consoleErr ErrKind.socket])
  let r4 := reconnect { r2.1 with live := false }
  (r4.1, evErr ++ r2.2 ++ evClose ++ r4.2)

/-- One lifecycle step; `none` when the event is not enabled (no pending
timer, or no live socket whose handlers could fire). -/
def step (hl : Bool) (s : LifeState) : LifeEvent → Option (LifeState × List Ev)
  | .timerFire =>
      if s.pending > 0 then
        some ({ s with pending := s.pending - 1, live := true }, [])
      else none
  | .wsOpen =>
      if s.live then
        some ({ s with reconnectAttempt := 0, reconnecting := false },
              [Ev.sendHello s.receivedID])
      else none
  | .wsFail =>
      if s.live then some (wsFailStep hl s) else none

/-- Run a sequence of lifecycle events, skipping disabled ones. -/
def runA (hl : Bool) (s : LifeState) : List LifeEvent → LifeState × List Ev
  | [] => (s, [])
  | e :: es =>
      match step hl s e with
      | some r =>
          let r' := runA hl r.1 es
          (r'.1, r.2 ++ r'.2)
      | none => runA hl s es

/-- Whether every event of the sequence is enabled when reached. -/
def allEnabled (hl : Bool) (s : LifeState) : List LifeEvent → Bool
  | [] => true
  | e :: es =>
      match step hl s e with
      | some (s', _) => allEnabled hl s' es
      | none => false

/-- State right after the constructor ran `this.ws = this.connect()`. -/
def initLife : LifeState :=
  { reconnectAttempt := 0, reconnecting := false, closing := false,
    receivedID := none, pending := 0, live := true }

/-- The event sequence of 44 consecutive connection failures: the
constructor's socket fails, and each scheduled reconnect's socket fails
after its timer fires. -/
def failRun : List LifeEvent :=
  LifeEvent.wsFail :: (List.replicate 43 [LifeEvent.timerFire, LifeEvent.wsFail]).flatten

/-- The spec's replay-buffer invariant: no peer identifier has buffered
entries while it is present in the peer registry. -/
def ReplayInv (s : ConnState) : Prop :=
  ∀ k : String, ahas s.connections k = true → alookup s.replayQueue k = none

/-- At most one reconnect pending at a time: at most one scheduled
`connect()` callback, and while one is pending the `reconnecting` flag is
set and no socket is live. -/
def PendInv (s : LifeState) : Prop :=
  s.pending ≤ 1 ∧ (s.pending = 1 → s.reconnecting = true ∧ s.live = false)

/-- Recognizes a `scheduleConnect` effect. -/
def isSchedule : Ev → Bool
  | .scheduleConnect _ => true
  | _ => false

/-- A fresh session state: nothing received, no peers, empty buffer. -/
def emptyConn : ConnState :=
  { receivedID := none, currentLobby := none, reconnectAttempt := 0,
    reconnecting := false, connections := [], replayQueue := [] }

/-- A session that has already been welcomed as `"p1"`. -/
def connP1 : ConnState := { emptyConn with receivedID := some "p1" }

/-- A session with one buffered candidate for the unregistered peer `"A"`. -/
def connBufA : ConnState :=
  { emptyConn with replayQueue := [("A", [Packet.candidate "A" "c1"])] }

theorem alookup_adelete_self {α : Type} (m : List (String × α)) (k : String) :
    alookup (adelete m k) k = none := by
  induction m with
  | nil => rfl
  | cons e rest ih =>
      rcases e with ⟨k', v⟩
      by_cases h : k' = k
      · simpa [adelete, h] using ih
      · simpa [adelete, h, alookup] using ih

theorem alookup_adelete_ne {α : Type} (m : List (String × α)) (k k' : String)
    (h : k' ≠ k) : alookup (adelete m k) k' = alookup m k' := by
  induction m with
  | nil => rfl
  | cons e rest ih =>
      rcases e with ⟨ke, v⟩
      by_cases he : ke = k
      · have hne : ke ≠ k' := fun hc => h (hc.symm.trans he)
        simp only [adelete, if_pos he, alookup, if_neg hne]
        exact ih
      · by_cases he' : ke = k'
        · subst he'
          simp [adelete, if_neg he, alookup]
        · simp only [adelete, if_neg he, alookup, if_neg he']
          exact ih

theorem alookup_aset_self {α : Type} (m : List (String × α)) (k : String)
    (v : α) : alookup (aset m k v) k = some v := by
  simp [aset, alookup]

theorem alookup_aset_ne {α : Type} (m : List (String × α)) (k k' : String)
    (v : α) (h : k' ≠ k) : alookup (aset m k v) k' = alookup m k' := by
  have h' : ¬ k = k' := fun hc => h hc.symm
  simp only [aset, alookup, if_neg h']
  exact alookup_adelete_ne m k k' h

theorem ahas_aset {α : Type} (m : List (String × α)) (k k' : String) (v : α) :
    ahas (aset m k v) k' = true ↔ (k' = k ∨ ahas m k' = true) := by
  by_cases h : k' = k
  · subst h
    simp [ahas, alookup_aset_self]
  · simp [ahas, alookup_aset_ne m k k' v h, h]

theorem deliverTo_receivedID (s : ConnState) (id : String) (p : Packet) :
    (deliverTo s id p).receivedID = s.receivedID := by
  unfold deliverTo
  rcases alookup s.connections id with _ | peer <;> rfl

theorem deliverTo_replayQueue (s : ConnState) (id : String) (p : Packet) :
    (deliverTo s id p).replayQueue = s.replayQueue := by
  unfold deliverTo
  rcases alookup s.connections id with _ | peer <;> rfl

theorem deliverTo_connections_ne (s : ConnState) (id k : String) (p : Packet)
    (h : k ≠ id) :
    alookup (deliverTo s id p).connections k = alookup s.connections k := by
  unfold deliverTo
  rcases hc : alookup s.connections id with _ | peer
  · rfl
  · simpa using alookup_aset_ne s.connections id k _ h

theorem deliverTo_delivered (s : ConnState) (id : String) (p : Packet)
    (peer : Peer) (h : alookup s.connections id = some peer) :
    alookup (deliverTo s id p).connections id =
      some { peer with delivered := peer.delivered ++ [p] } := by
  unfold deliverTo
  rw [h]
  simpa using alookup_aset_self s.connections id _

theorem deliverTo_ahas (s : ConnState) (id k : String) (p : Packet) :
    ahas (deliverTo s id p).connections k = ahas s.connections k := by
  by_cases h : k = id
  · subst h
    rcases hc : alookup s.connections k with _ | peer
    · unfold deliverTo
      rw [hc]
    · rw [ahas, deliverTo_delivered s k p peer hc, ahas, hc]
      rfl
  · rw [ahas, deliverTo_connections_ne s id k p h, ahas]

theorem flushReplay_receivedID (s : ConnState) (id : String) (q : List Packet) :
    (flushReplay s id q).1.receivedID = s.receivedID := by
  induction q generalizing s with
  | nil => rfl
  | cons p rest ih =>
      simp only [flushReplay]
      rw [ih (deliverTo s id p), deliverTo_receivedID]

theorem flushReplay_replayQueue (s : ConnState) (id : String) (q : List Packet) :
    (flushReplay s id q).1.replayQueue = s.replayQueue := by
  induction q generalizing s with
  | nil => rfl
  | cons p rest ih =>
      simp only [flushReplay]
      rw [ih (deliverTo s id p), deliverTo_replayQueue]

theorem flushReplay_connections_ne (s : ConnState) (id k : String)
    (q : List Packet) (h : k ≠ id) :
    alookup (flushReplay s id q).1.connections k = alookup s.connections k := by
  induction q generalizing s with
  | nil => rfl
  | cons p rest ih =>
      simp only [flushReplay]
      rw [ih (deliverTo s id p), deliverTo_connections_ne s id k p h]

theorem flushReplay_ahas (s : ConnState) (id k : String) (q : List Packet) :
    ahas (flushReplay s id q).1.connections k = ahas s.connections k := by
  induction q generalizing s with
  | nil => rfl
  | cons p rest ih =>
      simp only [flushReplay]
      rw [ih (deliverTo s id p), deliverTo_ahas]

theorem flushReplay_delivered (s : ConnState) (id : String) (q : List Packet)
    (peer : Peer) (h : alookup s.connections id = some peer) :
    alookup (flushReplay s id q).1.connections id =
      some { peer with delivered := peer.delivered ++ q } ∧
    (flushReplay s id q).2 = q.map (Ev.deliverCall id) := by
  induction q generalizing s peer with
  | nil =>
      simp only [flushReplay, List.append_nil, List.map_nil]
      exact ⟨h, trivial⟩
  | cons p rest ih =>
      have h' := deliverTo_delivered s id p peer h
      have := ih (deliverTo s id p) _ h'
      simp only [flushReplay]
      constructor
      · rw [this.1]
        simp
      · rw [List.map_cons]
        simp only [this.2]

theorem closePeer_ahas (s : ConnState) (id k : String) :
    ahas (closePeer s id).connections k = ahas s.connections k := by
  unfold closePeer
  rcases hc : alookup s.connections id with _ | peer
  · rfl
  · by_cases h : k = id
    · subst h
      simp [ahas, alookup_aset_self, hc]
    · simp [ahas, alookup_aset_ne s.connections id k _ h]

theorem closePeer_replayQueue (s : ConnState) (id : String) :
    (closePeer s id).replayQueue = s.replayQueue := by
  unfold closePeer
  rcases alookup s.connections id with _ | peer <;> rfl

theorem replayInv_preserved (hl : Bool) (s : ConnState) (f : Frame)
    (hinv : ReplayInv s) : ReplayInv (handleSignalingMessage hl s f).1 := by
  rcases f with _ | _ | p
  · exact hinv
  · exact hinv
  rcases p with id | lobby | ⟨id, pol⟩ | id | ⟨src, pay⟩ | ⟨src, pay⟩ | _ | err
  · -- welcome
    rcases hr : s.receivedID with _ | x
    · by_cases hid : id = ""
      · simp only [handleSignalingMessage, dispatchPacket, hr, hid, if_pos rfl]
        exact hinv
      · simp only [handleSignalingMessage, dispatchPacket, hr, if_neg hid]
        exact hinv
    · simp only [handleSignalingMessage, dispatchPacket, hr]
      exact hinv
  · -- joined
    by_cases hl' : lobby = ""
    · simp only [handleSignalingMessage, dispatchPacket, hl', if_pos rfl]
      exact hinv
    · simp only [handleSignalingMessage, dispatchPacket, if_neg hl']
      exact hinv
  · -- connect
    by_cases hself : s.receivedID = some id
    · simp only [handleSignalingMessage, dispatchPacket, if_pos hself]
      exact hinv
    · simp only [handleSignalingMessage, dispatchPacket, if_neg hself]
      intro k hk
      by_cases hk_id : k = id
      · subst hk_id
        exact alookup_adelete_self _ k
      · rw [alookup_adelete_ne _ id k hk_id]
        rw [flushReplay_replayQueue]
        have hk' : ahas s.connections k = true := by
          rw [flushReplay_ahas] at hk
          rcases (ahas_aset s.connections id k _).mp hk with h | h
          · exact absurd h hk_id
          · exact h
        exact hinv k hk'
  · -- disconnect
    by_cases hc : ahas s.connections id = true
    · simp only [handleSignalingMessage, dispatchPacket, if_pos hc]
      intro k hk
      rw [closePeer_ahas] at hk
      rw [closePeer_replayQueue]
      exact hinv k hk
    · simp only [handleSignalingMessage, dispatchPacket, if_neg hc]
      exact hinv
  · -- candidate
    by_cases hc : ahas s.connections src = true
    · simp only [handleSignalingMessage, dispatchPacket, if_pos hc]
      intro k hk
      rw [deliverTo_ahas] at hk
      rw [deliverTo_replayQueue]
      exact hinv k hk
    · simp only [handleSignalingMessage, dispatchPacket, if_neg hc]
      intro k hk
      have hk_src : k ≠ src := fun h => hc (h ▸ hk)
      rw [alookup_aset_ne _ src k _ hk_src]
      exact hinv k hk
  · -- description
    by_cases hc : ahas s.connections src = true
    · simp only [handleSignalingMessage, dispatchPacket, if_pos hc]
      intro k hk
      rw [deliverTo_ahas] at hk
      rw [deliverTo_replayQueue]
      exact hinv k hk
    · simp only [handleSignalingMessage, dispatchPacket, if_neg hc]
      intro k hk
      have hk_src : k ≠ src := fun h => hc (h ▸ hk)
      rw [alookup_aset_ne _ src k _ hk_src]
      exact hinv k hk
  · -- credentials
    exact hinv
  · -- error packet
    exact hinv

theorem closePeer_receivedID (s : ConnState) (id : String) :
    (closePeer s id).receivedID = s.receivedID := by
  unfold closePeer
  rcases alookup s.connections id with _ | peer <;> rfl

theorem receivedID_stable (hl : Bool) (s : ConnState) (x : String) (f : Frame)
    (h : s.receivedID = some x) :
    (handleSignalingMessage hl s f).1.receivedID = some x := by
  rcases f with _ | _ | p
  · exact h
  · exact h
  rcases p with id | lobby | ⟨id, pol⟩ | id | ⟨src, pay⟩ | ⟨src, pay⟩ | _ | err
  · simp [handleSignalingMessage, dispatchPacket, h]
  · by_cases hlo : lobby = ""
    · simp only [handleSignalingMessage, dispatchPacket, hlo, if_pos rfl]
      exact h
    · simp only [handleSignalingMessage, dispatchPacket, if_neg hlo]
      exact h
  · by_cases hself : s.receivedID = some id
    · simp only [handleSignalingMessage, dispatchPacket, if_pos hself]
      exact h
    · simp only [handleSignalingMessage, dispatchPacket, if_neg hself]
      rw [flushReplay_receivedID]
      exact h
  · by_cases hc : ahas s.connections id = true
    · simp only [handleSignalingMessage, dispatchPacket, if_pos hc]
      rw [closePeer_receivedID]
      exact h
    · simp only [handleSignalingMessage, dispatchPacket, if_neg hc]
      exact h
  · by_cases hc : ahas s.connections src = true
    · simp only [handleSignalingMessage, dispatchPacket, if_pos hc]
      rw [deliverTo_receivedID]
      exact h
    · simp only [handleSignalingMessage, dispatchPacket, if_neg hc]
      exact h
  · by_cases hc : ahas s.connections src = true
    · simp only [handleSignalingMessage, dispatchPacket, if_pos hc]
      rw [deliverTo_receivedID]
      exact h
    · simp only [handleSignalingMessage, dispatchPacket, if_neg hc]
      exact h
  · exact h
  · exact h

/-- C3: `receivedID` is assigned at most once per session: the first
`welcome` with a non-empty id records the id and emits `ready` (plus the
credential prefetch); once `receivedID` is set, a `welcome` with any id
leaves the whole state unchanged and emits `reconnected` instead, and in
fact no dispatched frame of any kind ever changes a set `receivedID`. -/
theorem c3_received_id_once (hl : Bool) (s : ConnState) (i : String) :
    (s.receivedID ≠ none →
      handleSignalingMessage hl s (Frame.ok (Packet.welcome i)) =
        (s, [Ev.reconnected])) ∧
    (s.receivedID = none → i ≠ "" →
      (handleSignalingMessage hl s (Frame.ok (Packet.welcome i))).1 =
        { s with receivedID := some i } ∧
      (handleSignalingMessage hl s (Frame.ok (Packet.welcome i))).2 =
        [Ev.ready, Ev.prefetchTURN]) ∧
    (∀ (x : String) (f : Frame), s.receivedID = some x →
      (handleSignalingMessage hl s f).1.receivedID = some x) := by
  refine ⟨?_, ?_, ?_⟩
  · intro h
    rcases hr : s.receivedID with _ | x
    · exact absurd hr h
    · simp [handleSignalingMessage, dispatchPacket, hr]
  · intro h hi
    constructor
    · simp [handleSignalingMessage, dispatchPacket, h, hi]
    · simp [handleSignalingMessage, dispatchPacket, h, hi]
  · intro x f h
    exact receivedID_stable hl s x f h

/-- Witness for C3: the second welcome on a session recorded as `"p1"`
emits `reconnected` and keeps the identifier. -/
theorem c3_received_id_once_witness :
    handleSignalingMessage true connP1 (Frame.ok (Packet.welcome "p2")) =
      (connP1, [Ev.reconnected]) ∧
    (handleSignalingMessage true connP1
        (Frame.ok (Packet.welcome "p2"))).1.receivedID = some "p1" :=
  ⟨(c3_received_id_once true connP1 "p2").1 (by decide),
   (c3_received_id_once true connP1 "p2").2.2 "p1"
     (Frame.ok (Packet.welcome "p2")) rfl⟩

/-- C8: a `connect` packet whose `id` equals the session's own
`receivedID` is skipped: no peer is added, no replay entry is flushed or
deleted, and no event is emitted — the state is returned unchanged with
an empty event list. -/
theorem c8_connect_self_noop (hl : Bool) (s : ConnState) (i : String)
    (pol : Bool) (h : s.receivedID = some i) :
    handleSignalingMessage hl s (Frame.ok (Packet.connect i pol)) = (s, []) := by
  simp [handleSignalingMessage, dispatchPacket, h]

/-- Witness for C8: a session welcomed as `"p1"` skips `connect{id:"p1"}`. -/
theorem c8_connect_self_noop_witness :
    handleSignalingMessage true connP1 (Frame.ok (Packet.connect "p1" true)) =
      (connP1, []) :=
  c8_connect_self_noop true connP1 "p1" true rfl

/-- C10: a `disconnect` packet whose `id` is not in the peer registry is
a no-op: no peer is closed, no event is emitted, and the session state is
unchanged. -/
theorem c10_disconnect_unknown_noop (hl : Bool) (s : ConnState) (i : String)
    (h : ahas s.connections i = false) :
    handleSignalingMessage hl s (Frame.ok (Packet.disconnect i)) = (s, []) := by
  simp [handleSignalingMessage, dispatchPacket, h]

/-- Witness for C10: `disconnect{id:"A"}` on a fresh session is a no-op. -/
theorem c10_disconnect_unknown_noop_witness :
    handleSignalingMessage true emptyConn (Frame.ok (Packet.disconnect "A")) =
      (emptyConn, []) :=
  c10_disconnect_unknown_noop true emptyConn "A" (by decide)

/-- C5: `welcome{id:""}` (while `receivedID` is unset) and
`joined{lobby:""}` each produce exactly one `unknown-error` event and
leave the whole session state — `receivedID`, `currentLobby`, the replay
queue and the attempt counter — unchanged. -/
theorem c5_empty_field_unknown_error (hl : Bool) (s : ConnState)
    (h : s.receivedID = none) :
    handleSignalingMessage hl s (Frame.ok (Packet.welcome "")) =
      (s, [Ev.sigError ErrKind.unknown]) ∧
    handleSignalingMessage hl s (Frame.ok (Packet.joined "")) =
      (s, [Ev.sigError ErrKind.unknown]) := by
  constructor
  · simp [handleSignalingMessage, dispatchPacket, h]
  · simp [handleSignalingMessage, dispatchPacket]

/-- Witness for C5: the empty-id welcome and empty-lobby joined on a
fresh session. -/
theorem c5_empty_field_unknown_error_witness :
    handleSignalingMessage true emptyConn (Frame.ok (Packet.welcome "")) =
      (emptyConn, [Ev.sigError ErrKind.unknown]) ∧
    handleSignalingMessage true emptyConn (Frame.ok (Packet.joined "")) =
      (emptyConn, [Ev.sigError ErrKind.unknown]) :=
  c5_empty_field_unknown_error true emptyConn rfl

/-- C7 counterexample: a syntactically valid frame whose `type`
discriminant matches no `case` of the dispatcher's `switch` is silently
ignored — the event list is empty, so no `unknown-error` is produced,
contrary to the claim. -/
theorem c7_counterexample_unknown_type_silent :
    (handleSignalingMessage true emptyConn Frame.unknownType).2 = [] ∧
    Ev.sigError ErrKind.unknown ∉
      (handleSignalingMessage true emptyConn Frame.unknownType).2 := by
  decide

/-- C7 amended: a malformed frame (JSON parse failure) produces an
`unknown-error` event, but a syntactically valid frame with an unknown
discriminant falls through the `switch` without a `default` case and is
silently ignored: no event, no state change, no propagated fault. -/
theorem c7_amended_unknown_type_ignored (hl : Bool) (s : ConnState) :
    handleSignalingMessage hl s Frame.unknownType = (s, []) ∧
    handleSignalingMessage hl s Frame.malformed =
      (s, [Ev.sigError ErrKind.unknown]) :=
  ⟨rfl, rfl⟩

/-- C1: a `candidate` or a `description` from an unregistered source `A`
is appended to the replay queue under `A` in arrival order with nothing
delivered; a later `connect` for `A` (when `A` is not the session's own
id) registers a fresh peer, delivers exactly the buffered packets to it
in buffer order during that same dispatch — hence before any later packet
addressed to `A`, which (for `candidate` and `description` alike) is
appended to the peer's delivery log afterwards — and deletes the replay
entry for `A`; and the invariant that no identifier has buffered entries
while present in the peer registry holds in the freshly constructed
session and is preserved by the dispatch of every frame. -/
theorem c1_replay_buffer_flush (hl : Bool) (s : ConnState) (A pay : String)
    (pol : Bool) :
    (ahas s.connections A = false →
      (handleSignalingMessage hl s (Frame.ok (Packet.candidate A pay))).1.replayQueue =
        aset s.replayQueue A
          ((alookup s.replayQueue A).getD [] ++ [Packet.candidate A pay]) ∧
      (handleSignalingMessage hl s (Frame.ok (Packet.candidate A pay))).2 = [] ∧
      (handleSignalingMessage hl s (Frame.ok (Packet.description A pay))).1.replayQueue =
        aset s.replayQueue A
          ((alookup s.replayQueue A).getD [] ++ [Packet.description A pay]) ∧
      (handleSignalingMessage hl s (Frame.ok (Packet.description A pay))).2 = []) ∧
    (s.receivedID ≠ some A →
      alookup (handleSignalingMessage hl s
          (Frame.ok (Packet.connect A pol))).1.connections A =
        some { delivered := (alookup s.replayQueue A).getD [],
               closed := false, polite := pol } ∧
      (handleSignalingMessage hl s (Frame.ok (Packet.connect A pol))).2 =
        Ev.addPeerCall A pol ::
          ((alookup s.replayQueue A).getD []).map (Ev.deliverCall A) ∧
      alookup (handleSignalingMessage hl s
          (Frame.ok (Packet.connect A pol))).1.replayQueue A = none) ∧
    (∀ peer : Peer, alookup s.connections A = some peer →
      alookup (handleSignalingMessage hl s
          (Frame.ok (Packet.candidate A pay))).1.connections A =
        some { peer with
               delivered := peer.delivered ++ [Packet.candidate A pay] } ∧
      alookup (handleSignalingMessage hl s
          (Frame.ok (Packet.description A pay))).1.connections A =
        some { peer with
               delivered := peer.delivered ++ [Packet.description A pay] }) ∧
    (ReplayInv s → ∀ f : Frame, ReplayInv (handleSignalingMessage hl s f).1) ∧
    ReplayInv emptyConn := by
  refine ⟨?_, ?_, ?_, ?_, ?_⟩
  · intro h
    refine ⟨?_, ?_, ?_, ?_⟩
    · simp [handleSignalingMessage, dispatchPacket, h]
    · simp [handleSignalingMessage, dispatchPacket, h]
    · simp [handleSignalingMessage, dispatchPacket, h]
    · simp [handleSignalingMessage, dispatchPacket, h]
  · intro hself
    have hfresh : alookup (addPeer s A pol).connections A =
        some { delivered := [], closed := false, polite := pol } := by
      simpa [addPeer] using
        alookup_aset_self s.connections A
          { delivered := [], closed := false, polite := pol }
    have hfl := flushReplay_delivered (addPeer s A pol) A
      ((alookup (addPeer s A pol).replayQueue A).getD []) _ hfresh
    refine ⟨?_, ?_, ?_⟩
    · simp only [handleSignalingMessage, dispatchPacket, if_neg hself]
      rw [hfl.1]
      simp [addPeer]
    · simp only [handleSignalingMessage, dispatchPacket, if_neg hself]
      rw [hfl.2]
      simp [addPeer]
    · simp only [handleSignalingMessage, dispatchPacket, if_neg hself]
      exact alookup_adelete_self _ A
  · intro peer hpeer
    have hc : ahas s.connections A = true := by
      rw [ahas, hpeer]
      rfl
    constructor
    · simp only [handleSignalingMessage, dispatchPacket, if_pos hc]
      exact deliverTo_delivered s A (Packet.candidate A pay) peer hpeer
    · simp only [handleSignalingMessage, dispatchPacket, if_pos hc]
      exact deliverTo_delivered s A (Packet.description A pay) peer hpeer
  · intro hinv f
    exact replayInv_preserved hl s f hinv
  · intro k hk
    simp [emptyConn, ahas, alookup] at hk

/-- Witness for C1: a description from the unregistered peer `"A"` is
buffered on a fresh session, and a session holding one buffered candidate
for `"A"` delivers exactly that candidate on `connect{id:"A"}` and clears
the buffer. -/
theorem c1_replay_buffer_flush_witness :
    (handleSignalingMessage true emptyConn
        (Frame.ok (Packet.description "A" "d1"))).1.replayQueue =
      [("A", [Packet.description "A" "d1"])] ∧
    alookup (handleSignalingMessage true connBufA
        (Frame.ok (Packet.connect "A" true))).1.connections "A" =
      some { delivered := [Packet.candidate "A" "c1"],
             closed := false, polite := true } ∧
    (handleSignalingMessage true connBufA
        (Frame.ok (Packet.connect "A" true))).2 =
      [Ev.addPeerCall "A" true, Ev.deliverCall "A" (Packet.candidate "A" "c1")] ∧
    alookup (handleSignalingMessage true connBufA
        (Frame.ok (Packet.connect "A" true))).1.replayQueue "A" = none := by
  have hb := (c1_replay_buffer_flush true emptyConn "A" "d1" true).1 (by decide)
  have h := (c1_replay_buffer_flush true connBufA "A" "c1" true).2.1 (by decide)
  refine ⟨?_, ?_, ?_, h.2.2⟩
  · have := hb.2.2.1
    simpa [emptyConn, aset, adelete, alookup] using this
  · have := h.1
    simpa using this
  · have := h.2.1
    simpa using this

theorem flushReplay_events_deliver (s : ConnState) (id : String)
    (q : List Packet) :
    ∀ e ∈ (flushReplay s id q).2, ∃ p, e = Ev.deliverCall id p := by
  induction q generalizing s with
  | nil =>
      intro e he
      cases he
  | cons p rest ih =>
      intro e he
      rcases List.mem_cons.mp he with h | h
      · exact ⟨p, h⟩
      · exact ih (deliverTo s id p) e h

theorem closeTransport_not_emitted (hl : Bool) (s : ConnState) (f : Frame) :
    Ev.closeTransport ∉ (handleSignalingMessage hl s f).2 := by
  rcases f with _ | _ | p
  · simp [handleSignalingMessage]
  · simp [handleSignalingMessage]
  rcases p with id | lobby | ⟨id, pol⟩ | id | ⟨src, pay⟩ | ⟨src, pay⟩ | _ | err
  · rcases hr : s.receivedID with _ | x
    · by_cases hid : id = "" <;>
        simp [handleSignalingMessage, dispatchPacket, hr, hid]
    · simp [handleSignalingMessage, dispatchPacket, hr]
  · by_cases hlo : lobby = "" <;>
      simp [handleSignalingMessage, dispatchPacket, hlo]
  · by_cases hself : s.receivedID = some id
    · simp [handleSignalingMessage, dispatchPacket, hself]
    · simp only [handleSignalingMessage, dispatchPacket, if_neg hself]
      intro hmem
      rcases List.mem_cons.mp hmem with h | h
      · cases h
      · rcases flushReplay_events_deliver _ id _ Ev.closeTransport h with ⟨p, hp⟩
        cases hp
  · by_cases hc : ahas s.connections id = true <;>
      simp [handleSignalingMessage, dispatchPacket, hc]
  · by_cases hc : ahas s.connections src = true <;>
      simp [handleSignalingMessage, dispatchPacket, hc]
  · by_cases hc : ahas s.connections src = true <;>
      simp [handleSignalingMessage, dispatchPacket, hc]
  · simp [handleSignalingMessage, dispatchPacket]
  · cases hl <;> simp [handleSignalingMessage, dispatchPacket]

theorem handleAll_length (hl : Bool) (s : ConnState) (fs : List Frame) :
    (handleAll hl s fs).2.length = fs.length := by
  induction fs generalizing s with
  | nil => rfl
  | cons f rest ih =>
      simp only [handleAll, List.length_cons]
      rw [ih]

/-- C6: any exception raised while parsing or dispatching one inbound
frame is caught inside the dispatcher and becomes a single categorized
`unknown-error` event with the state untouched; dispatch is a total
function (it never throws out of the handler), it never emits a
transport-close effect, and dispatching a frame never prevents later
frames from being dispatched (every frame of a sequence yields its own
event batch). -/
theorem c6_dispatch_isolated (hl : Bool) (s : ConnState) (f : Frame) :
    (∀ p : Packet, f = Frame.ok p → dispatchPacket hl s p = Except.error () →
      handleSignalingMessage hl s f = (s, [Ev.sigError ErrKind.unknown])) ∧
    handleSignalingMessage hl s Frame.malformed =
      (s, [Ev.sigError ErrKind.unknown]) ∧
    Ev.closeTransport ∉ (handleSignalingMessage hl s f).2 ∧
    (∀ fs : List Frame, (handleAll hl s (f :: fs)).2.length = fs.length + 1) := by
  refine ⟨?_, rfl, closeTransport_not_emitted hl s f, ?_⟩
  · intro p hf herr
    subst hf
    simp [handleSignalingMessage, herr]
  · intro fs
    simpa using handleAll_length hl s (f :: fs)

/-- Witness for C6: the throwing empty-id welcome is converted into a
single `unknown-error` and the following frame is still dispatched. -/
theorem c6_dispatch_isolated_witness :
    handleSignalingMessage true emptyConn (Frame.ok (Packet.welcome "")) =
      (emptyConn, [Ev.sigError ErrKind.unknown]) ∧
    (handleAll true emptyConn
      [Frame.ok (Packet.welcome ""), Frame.ok (Packet.welcome "p1")]).2.length = 2 :=
  ⟨(c6_dispatch_isolated true emptyConn (Frame.ok (Packet.welcome ""))).1
      (Packet.welcome "") rfl rfl,
   (c6_dispatch_isolated true emptyConn (Frame.ok (Packet.welcome ""))).2.2.2
      [Frame.ok (Packet.welcome "p1")]⟩

theorem consoleErr_unknown_not_emitted (hl : Bool) (s : ConnState)
    (f : Frame) :
    Ev.consoleErr ErrKind.unknown ∉ (handleSignalingMessage hl s f).2 := by
  rcases f with _ | _ | p
  · simp [handleSignalingMessage]
  · simp [handleSignalingMessage]
  rcases p with id | lobby | ⟨id, pol⟩ | id | ⟨src, pay⟩ | ⟨src, pay⟩ | _ | err
  · rcases hr : s.receivedID with _ | x
    · by_cases hid : id = "" <;>
        simp [handleSignalingMessage, dispatchPacket, hr, hid]
    · simp [handleSignalingMessage, dispatchPacket, hr]
  · by_cases hlo : lobby = "" <;>
      simp [handleSignalingMessage, dispatchPacket, hlo]
  · by_cases hself : s.receivedID = some id
    · simp [handleSignalingMessage, dispatchPacket, hself]
    · simp only [handleSignalingMessage, dispatchPacket, if_neg hself]
      intro hmem
      rcases List.mem_cons.mp hmem with h | h
      · cases h
      · rcases flushReplay_events_deliver _ id _ _ h with ⟨p, hp⟩
        cases hp
  · by_cases hc : ahas s.connections id = true <;>
      simp [handleSignalingMessage, dispatchPacket, hc]
  · by_cases hc : ahas s.connections src = true <;>
      simp [handleSignalingMessage, dispatchPacket, hc]
  · by_cases hc : ahas s.connections src = true <;>
      simp [handleSignalingMessage, dispatchPacket, hc]
  · simp [handleSignalingMessage, dispatchPacket]
  · cases hl <;> simp [handleSignalingMessage, dispatchPacket]

theorem reconnect_no_console (s : LifeState) (k : ErrKind) :
    Ev.consoleErr k ∉ (reconnect s).2 := by
  unfold reconnect
  by_cases h1 : s.reconnecting || s.closing
  · simp [h1]
  · by_cases h2 : s.reconnectAttempt > 42 <;> simp [h1, h2]

/-- C4 counterexample: with no observer registered for the error event
(`hl = false`), a malformed frame surfaces an `unknown-error` event but
produces no diagnostic output at all — the catch block of the dispatcher
has no console fallback, so this error kind is silently swallowed,
contrary to the claim that every surfaced error is made visible. -/
theorem c4_counterexample_unknown_error_swallowed :
    (handleSignalingMessage false emptyConn Frame.malformed).2 =
      [Ev.sigError ErrKind.unknown] ∧
    Ev.consoleErr ErrKind.unknown ∉
      (handleSignalingMessage false emptyConn Frame.malformed).2 ∧
    Ev.consoleErr ErrKind.socket ∉
      (handleSignalingMessage false emptyConn Frame.malformed).2 ∧
    Ev.consoleErr ErrKind.server ∉
      (handleSignalingMessage false emptyConn Frame.malformed).2 := by
  decide

/-- C4 amended: when no observer is registered, server-error packets and
the socket-errors raised by the transport error/close handlers are echoed
to diagnostic output, but the `unknown-error` events produced by the
dispatch catch block and the socket-error emitted when reconnection is
given up carry no diagnostic fallback at all. -/
theorem c4_amended_error_visibility (hl : Bool) (s : ConnState)
    (ls : LifeState) (e : String) (f : Frame) :
    (hl = false →
      handleSignalingMessage hl s (Frame.ok (Packet.errorPkt e)) =
        (s, [Ev.sigError ErrKind.server, Ev.consoleErr ErrKind.server])) ∧
    (hl = false → Ev.consoleErr ErrKind.socket ∈ (wsFailStep hl ls).2) ∧
    Ev.consoleErr ErrKind.unknown ∉ (handleSignalingMessage hl s f).2 ∧
    (∀ k : ErrKind, Ev.consoleErr k ∉ (reconnect ls).2) := by
  refine ⟨?_, ?_, consoleErr_unknown_not_emitted hl s f,
    fun k => reconnect_no_console ls k⟩
  · intro h
    subst h
    simp [handleSignalingMessage, dispatchPacket]
  · intro h
    subst h
    simp [wsFailStep]

/-- Witness for C4 (amended): with no observer, a server error packet is
echoed to the console and a transport failure's socket-error is echoed
too. -/
theorem c4_amended_error_visibility_witness :
    handleSignalingMessage false emptyConn (Frame.ok (Packet.errorPkt "boom")) =
      (emptyConn, [Ev.sigError ErrKind.server, Ev.consoleErr ErrKind.server]) ∧
    Ev.consoleErr ErrKind.socket ∈ (wsFailStep false initLife).2 :=
  ⟨(c4_amended_error_visibility false emptyConn initLife "boom"
      Frame.malformed).1 rfl,
   (c4_amended_error_visibility false emptyConn initLife "boom"
      Frame.malformed).2.1 rfl⟩

/-- C9: `reconnect()` is a no-op — no event, no timer, no counter
change — when the reconnecting flag is already set or the session is in
the application-initiated closing state; a successful scheduling sets the
flag, increments the attempt counter by exactly one and schedules exactly
one connection; and consequently at most one reconnect is pending at any
time: the pending-timer invariant holds initially and is preserved by
every enabled lifecycle step. -/
theorem c9_reconnect_single_pending (s : LifeState) :
    (s.reconnecting = true ∨ s.closing = true → reconnect s = (s, [])) ∧
    (s.reconnecting = false → s.closing = false → s.reconnectAttempt ≤ 42 →
      (reconnect s).1.reconnecting = true ∧
      (reconnect s).1.reconnectAttempt = s.reconnectAttempt + 1 ∧
      (reconnect s).1.pending = s.pending + 1 ∧
      (reconnect s).2.countP isSchedule = 1) ∧
    PendInv initLife ∧
    (∀ (hl : Bool) (e : LifeEvent) (r : LifeState × List Ev),
      PendInv s → step hl s e = some r → PendInv r.1) := by
  refine ⟨?_, ?_, ?_, ?_⟩
  · intro h
    rcases h with h | h <;> simp [reconnect, h]
  · intro h1 h2 h3
    have hc : ¬ s.reconnectAttempt > 42 := by omega
    simp [reconnect, h1, h2, hc, List.countP_cons, isSchedule]
  · exact ⟨by decide, fun h => absurd h (by decide)⟩
  · intro hl e r hinv hstep
    rcases e with _ | _ | _
    · simp only [step] at hstep
      split at hstep
      · cases hstep
        refine ⟨?_, ?_⟩
        · show s.pending - 1 ≤ 1
          have h1 := hinv.1
          omega
        · intro h
          exfalso
          have h' : s.pending - 1 = 1 := h
          have h1 := hinv.1
          omega
      · cases hstep
    · simp only [step] at hstep
      split at hstep
      · cases hstep
        refine ⟨hinv.1, ?_⟩
        intro h
        exfalso
        rename_i hlive
        have := (hinv.2 h).2
        rw [this] at hlive
        cases hlive
      · cases hstep
    · simp only [step] at hstep
      split at hstep
      · cases hstep
        rename_i hlive
        have hp : s.pending = 0 := by
          rcases Nat.eq_or_lt_of_le hinv.1 with h | h
          · rw [(hinv.2 h).2] at hlive
            cases hlive
          · omega
        by_cases hcl : s.closing = true
        · refine ⟨?_, ?_⟩ <;> simp [wsFailStep, reconnect, hcl, hp]
        · have hcl' : s.closing = false := by
            cases hc : s.closing
            · rfl
            · exact absurd hc hcl
          by_cases hat : s.reconnectAttempt > 42
          · refine ⟨?_, ?_⟩ <;> simp [wsFailStep, reconnect, hcl', hat, hp]
          · refine ⟨?_, ?_⟩ <;> simp [wsFailStep, reconnect, hcl', hat, hp]
      · cases hstep

/-- Witness for C9: a reconnect while already reconnecting is a no-op,
and a fresh reconnect sets the flag and bumps the counter to 1. -/
theorem c9_reconnect_single_pending_witness :
    reconnect { initLife with reconnecting := true } =
      ({ initLife with reconnecting := true }, []) ∧
    (reconnect initLife).1.reconnectAttempt = 1 ∧
    (reconnect initLife).1.pending = 1 :=
  ⟨(c9_reconnect_single_pending { initLife with reconnecting := true }).1
      (Or.inl rfl),
   ((c9_reconnect_single_pending initLife).2.1 rfl rfl (by decide)).2.1,
   ((c9_reconnect_single_pending initLife).2.1 rfl rfl (by decide)).2.2.1⟩

/-- C2 counterexample: in the run of 44 consecutive connection failures
(every event enabled when reached), the terminal `failed` event is
emitted twice, not exactly once — the final failing socket's error
handler and close handler each call `reconnect()` past the ceiling, and
nothing marks the terminal state, so each call emits `failed` again. -/
theorem c2_counterexample_failed_twice :
    allEnabled true initLife failRun = true ∧
    (runA true initLife failRun).2.count Ev.failed = 2 := by
  decide

/-- C2 amended: while the attempt counter is at most 42, each
non-application-initiated transport failure schedules exactly one new
`connect()` (setting the reconnecting flag and bumping the counter), and
the `hello` sent on a socket open carries the previously received
identifier; once the counter exceeds 42, a transport failure emits the
terminal `failed` event and the categorized socket-error twice — once
from the error handler and once from the close handler — schedules no
connection, and leaves a dead state (no live socket, no pending timer)
from which no further lifecycle event is enabled. -/
theorem c2_amended_reconnect_ceiling (hl : Bool) (s : LifeState)
    (hlive : s.live = true) (hcl : s.closing = false) :
    (s.reconnectAttempt ≤ 42 →
      step hl s LifeEvent.wsFail = some (wsFailStep hl s) ∧
      (wsFailStep hl s).1.pending = s.pending + 1 ∧
      (wsFailStep hl s).1.reconnectAttempt = s.reconnectAttempt + 1 ∧
      (wsFailStep hl s).1.reconnecting = true ∧
      (wsFailStep hl s).2.countP isSchedule = 1) ∧
    step hl s LifeEvent.wsOpen =
      some ({ s with reconnectAttempt := 0, reconnecting := false },
            [Ev.sendHello s.receivedID]) ∧
    (s.reconnectAttempt > 42 →
      (wsFailStep hl s).2.count Ev.failed = 2 ∧
      (wsFailStep hl s).2.countP isSchedule = 0 ∧
      (wsFailStep hl s).1.pending = s.pending ∧
      (wsFailStep hl s).1.live = false ∧
      (s.pending = 0 → ∀ e : LifeEvent,
        step hl (wsFailStep hl s).1 e = none)) := by
  refine ⟨?_, ?_, ?_⟩
  · intro hat
    have hc : ¬ s.reconnectAttempt > 42 := by omega
    refine ⟨by simp [step, hlive], ?_, ?_, ?_, ?_⟩ <;>
      cases hl <;>
        simp [wsFailStep, reconnect, hcl, hc, isSchedule, List.countP_cons]
  · simp [step, hlive]
  · intro hat
    refine ⟨?_, ?_, ?_, ?_, ?_⟩
    · cases hl <;>
        simp [wsFailStep, reconnect, hcl, hat, List.count_cons]
    · cases hl <;>
        simp [wsFailStep, reconnect, hcl, hat, isSchedule, List.countP_cons]
    · cases hl <;> simp [wsFailStep, reconnect, hcl, hat]
    · cases hl <;> simp [wsFailStep, reconnect, hcl, hat]
    · intro hp e
      rcases e with _ | _ | _ <;>
        cases hl <;>
          simp [step, wsFailStep, reconnect, hcl, hat, hp]

/-- Witness for C2 (amended): from the freshly constructed session, the
first connection failure schedules one reconnect, and from the
exhausted state the failure emits `failed` twice and leaves a state with
no enabled event. -/
theorem c2_amended_reconnect_ceiling_witness :
    (wsFailStep true initLife).1.pending = 1 ∧
    (wsFailStep true { initLife with reconnectAttempt := 43 }).2.count
      Ev.failed = 2 ∧
    step true (wsFailStep true
      { initLife with reconnectAttempt := 43 }).1 LifeEvent.timerFire = none :=
  ⟨((c2_amended_reconnect_ceiling true initLife rfl rfl).1
      (by decide)).2.1,
   ((c2_amended_reconnect_ceiling true { initLife with reconnectAttempt := 43 }
      rfl rfl).2.2 (by decide)).1,
   ((((c2_amended_reconnect_ceiling true { initLife with reconnectAttempt := 43 }
      rfl rfl).2.2 (by decide)).2.2.2.2) rfl LifeEvent.timerFire)⟩

end Netlib
